import Mathlib

/-!
Shallow embedding of the shift scheduling engine:
time window calculator and clock event validators (utils/datetime.js),
shift state machine and command service (services/shift/index.js),
location resolver (services/location/index.js), and the paginated
query engine.  Instants are modelled as integers counting minutes,
with one calendar day equal to 1440 minutes (the source treats dates
and times as naive local values); all order comparisons of the source
are preserved exactly.
-/

namespace ShiftEngine


/-- A clock time of day, the parse of an HH:MM string
(`timeString.split(":").map(Number)`). -/
structure TimeHM where
  hours : Nat
  minutes : Nat
deriving DecidableEq, Repr

/-- Minutes after midnight denoted by an HH:MM clock time. -/
def TimeHM.toMinutes (t : TimeHM) : Int :=
  t.hours * 60 + t.minutes

/-- Embedding of createDateTime: anchor at midnight of the given date,
then apply the hour and minute offsets. -/
def createDateTime (date : Int) (t : TimeHM) : Int :=
  date * 1440 + t.toMinutes

/-- Result pair of createShiftDateTimes. -/
structure ShiftDateTimes where
  startDateTime : Int
  finishDateTime : Int
deriving DecidableEq, Repr

/-- Embedding of createShiftDateTimes: both clock times are anchored on
the shift date; when the finish candidate is before or the same as the
start, one day is added to the finish (overnight shift). -/
def createShiftDateTimes (shiftDate : Int) (startTime finishTime : TimeHM) :
    ShiftDateTimes :=
  let startDateTime := createDateTime shiftDate startTime
  let finishDateTime := createDateTime shiftDate finishTime
  if finishDateTime < startDateTime ∨ finishDateTime = startDateTime then
    { startDateTime := startDateTime, finishDateTime := finishDateTime + 1440 }
  else
    { startDateTime := startDateTime, finishDateTime := finishDateTime }

/-- Embedding of SHIFT_CONSTRAINTS from services/shift/constants.js. -/
structure ShiftConstraints where
  EARLY_CLOCK_IN_BUFFER : Int
  MINIMUM_CLOCK_OUT_BUFFER : Int
deriving DecidableEq, Repr

/-- The frozen constraint values of the source. -/
def SHIFT_CONSTRAINTS : ShiftConstraints :=
  { EARLY_CLOCK_IN_BUFFER := 10, MINIMUM_CLOCK_OUT_BUFFER := 120 }

/-- Validation outcome returned by the clock event validators. -/
structure ValidationResult where
  isValid : Bool
  message : String
deriving DecidableEq, Repr

/-- Embedding of validateClockInTime; the process clock reading `now` is
made an explicit argument.  The source fails when now.isBefore(earliest)
or now.isAfter(shiftEnd), with two different messages. -/
def validateClockInTime (now : Int) (startDateTime finishDateTime : Int)
    (earlyClockInMinutes : Int) : ValidationResult :=
  let earliestClockIn := startDateTime - earlyClockInMinutes
  if now < earliestClockIn then
    { isValid := false
      message := "Cannot clock in more than " ++ toString earlyClockInMinutes ++
        " minutes before shift starts" }
  else if finishDateTime < now then
    { isValid := false, message := "Cannot clock in after shift end time" }
  else
    { isValid := true, message := "Clock-in time is valid" }

/-- Embedding of validateClockOutTime; the source fails only when
now.isBefore(shiftEnd minus the buffer), so there is no upper bound. -/
def validateClockOutTime (now : Int) (finishDateTime : Int)
    (minimumClockOutBufferMinutes : Int) : ValidationResult :=
  let earliestClockOut := finishDateTime - minimumClockOutBufferMinutes
  if now < earliestClockOut then
    { isValid := false
      message := "Cannot clock out more than " ++
        toString minimumClockOutBufferMinutes ++ " minutes before shift ends" }
  else
    { isValid := true, message := "Clock-out time is valid" }

/-- Embedding of formatTimeString restricted to instants: the HH:MM clock
time of an instant (the date portion is dropped).  Mirrors
dayjs(datetime).format with pattern HH:mm. -/
def toTimeHM (i : Int) : TimeHM :=
  let m := i % 1440
  { hours := (m / 60).toNat, minutes := (m % 60).toNat }

/-- Embedding of SHIFT_STATUS, a closed enumeration of the four status
strings of constants.js. -/
inductive ShiftStatus
  | Scheduled
  | InProgress
  | Completed
  | Cancelled
deriving DecidableEq, Repr

/-- The status string the source stores and interpolates into messages. -/
def ShiftStatus.text : ShiftStatus → String
  | .Scheduled => "Scheduled"
  | .InProgress => "In Progress"
  | .Completed => "Completed"
  | .Cancelled => "Cancelled"

/-- An error thrown by the service layer.  AppError instances carry a
status code and a machine readable errorCode; an arbitrary thrown error
need not carry an errorCode, hence the Option. -/
structure ThrownError where
  message : String
  statusCode : Nat
  errorCode : Option String
deriving DecidableEq, Repr

/-- Coordinate pair of a location payload (spelled cordinates in the
source). -/
structure Cordinates where
  longitude : Int
  latitude : Int
deriving DecidableEq, Repr

/-- Location payload submitted with a shift (name, address, postcode,
coordinates). -/
structure LocationPayload where
  name : String
  address : String
  postCode : String
  cordinates : Cordinates
deriving DecidableEq, Repr

/-- A stored Location document, with its identifier. -/
structure Location where
  id : Nat
  name : String
  address : String
  postCode : String
  cordinates : Cordinates
deriving DecidableEq, Repr

/-- Embedding of findOrCreateLocation of services/location/index.js:
look a location up by name; when none exists, save a new document built
from the payload (the store assigns it the fresh identifier `newId`).
Returns the found or created document and the updated location store. -/
def findOrCreateLocation (store : List Location) (locationData : LocationPayload)
    (newId : Nat) : Location × List Location :=
  match store.find? (fun l => l.name == locationData.name) with
  | some location => (location, store)
  | none =>
      let location : Location :=
        { id := newId
          name := locationData.name
          address := locationData.address
          postCode := locationData.postCode
          cordinates := locationData.cordinates }
      (location, store ++ [location])

/-- A stored Shift document.  User and location are held as foreign
identifiers, start and finish as computed instants, exactly as persisted
by the source model. -/
structure Shift where
  title : String
  role : String
  typeOfShift : List String
  user : Nat
  startTime : Int
  finishTime : Int
  numOfShiftsPerDay : Nat
  location : Nat
  date : Int
  status : ShiftStatus
  clockInTime : Option Int
  clockOutTime : Option Int
deriving DecidableEq, Repr

/-- Create payload (schema validated upstream): all fields of the create
contract; numOfShiftsPerDay is optional and defaults to 1 in createShift,
mirroring the destructuring default of the source. -/
structure ShiftData where
  title : String
  role : String
  typeOfShift : List String
  user : Nat
  startTime : TimeHM
  finishTime : TimeHM
  numOfShiftsPerDay : Option Nat
  location : LocationPayload
  date : Int
deriving DecidableEq, Repr

/-- Update payload: every field optional, absent fields are not touched
by the update. -/
structure ShiftPatch where
  title : Option String
  role : Option String
  typeOfShift : Option (List String)
  user : Option Nat
  startTime : Option TimeHM
  finishTime : Option TimeHM
  numOfShiftsPerDay : Option Nat
  location : Option LocationPayload
  date : Option Int
deriving DecidableEq, Repr

/-- The document store the service operates over: existing user
identifiers, the location collection, the shift collection keyed by
identifier, and a fresh identifier source standing for store assigned
object ids. -/
structure World where
  users : List Nat
  locations : List Location
  shifts : List (Nat × Shift)
  nextId : Nat
deriving DecidableEq, Repr

/-- ShiftModel.findById over the embedded store. -/
def lookupShift (w : World) (shiftId : Nat) : Option Shift :=
  (w.shifts.find? (fun p => p.1 == shiftId)).map (fun p => p.2)

/-- ShiftModel.findByIdAndUpdate: replace the document with the given
identifier, leaving every other document alone. -/
def replaceShift (w : World) (shiftId : Nat) (s : Shift) : World :=
  { w with shifts := w.shifts.map (fun p => if p.1 == shiftId then (p.1, s) else p) }

/-- UserModel.findById reduced to the existence check the service makes. -/
def userExists (w : World) (userId : Nat) : Bool :=
  w.users.contains userId

/-- Whether the first character list begins the second. -/
def startsWithChars : List Char → List Char → Bool
  | [], _ => true
  | _ :: _, [] => false
  | p :: ps, c :: cs => p == c && startsWithChars ps cs

/-- Whether the pattern occurs somewhere in the character list. -/
def containsChars (pat : List Char) : List Char → Bool
  | [] => startsWithChars pat []
  | c :: cs => startsWithChars pat (c :: cs) || containsChars pat cs

/-- Embedding of String.prototype.includes, used by clockInShift to pick
an errorCode from the validation message. -/
def strIncludes (s pat : String) : Bool :=
  containsChars pat.data s.data

/-- Embedding of createShift: check the user exists, resolve or create
the location, compute the instant pair, persist a new Scheduled shift
with null clock fields.  Fresh identifiers come from the store counter;
the read back response projection is dropped. -/
def createShift (w : World) (shiftData : ShiftData) :
    Except ThrownError (World × Shift) :=
  if userExists w shiftData.user = false then
    .error { message := "User not found", statusCode := 404
             errorCode := some "USER_NOT_FOUND" }
  else
    let resolved := findOrCreateLocation w.locations shiftData.location w.nextId
    let times := createShiftDateTimes shiftData.date shiftData.startTime
      shiftData.finishTime
    let newShift : Shift :=
      { title := shiftData.title
        role := shiftData.role
        typeOfShift := shiftData.typeOfShift
        user := shiftData.user
        startTime := times.startDateTime
        finishTime := times.finishDateTime
        numOfShiftsPerDay := shiftData.numOfShiftsPerDay.getD 1
        location := resolved.1.id
        date := shiftData.date
        status := ShiftStatus.Scheduled
        clockInTime := none
        clockOutTime := none }
    .ok ({ w with locations := resolved.2
                  shifts := w.shifts ++ [(w.nextId + 1, newShift)]
                  nextId := w.nextId + 2 }, newShift)

/-- The tail of updateShift after the existence, status and user checks:
resolve the location if supplied, recompute the instant pair if any of
date, startTime or finishTime is supplied (existing values serve as
fallback for the fields not supplied, the stored instants formatted back
to clock times), then write only the supplied fields. -/
def applyShiftUpdate (w : World) (shiftId : Nat) (existingShift : Shift)
    (updateData : ShiftPatch) : World × Shift :=
  let resolved : Option Nat × World :=
    match updateData.location with
    | some lp =>
        let r := findOrCreateLocation w.locations lp w.nextId
        (some r.1.id, { w with locations := r.2, nextId := w.nextId + 1 })
    | none => (none, w)
  let times : Option ShiftDateTimes :=
    if updateData.startTime.isSome || updateData.finishTime.isSome ||
        updateData.date.isSome then
      some (createShiftDateTimes
        (updateData.date.getD existingShift.date)
        (updateData.startTime.getD (toTimeHM existingShift.startTime))
        (updateData.finishTime.getD (toTimeHM existingShift.finishTime)))
    else none
  let newShift : Shift :=
    { title := updateData.title.getD existingShift.title
      role := updateData.role.getD existingShift.role
      typeOfShift := updateData.typeOfShift.getD existingShift.typeOfShift
      user := updateData.user.getD existingShift.user
      startTime := (times.map ShiftDateTimes.startDateTime).getD
        existingShift.startTime
      finishTime := (times.map ShiftDateTimes.finishDateTime).getD
        existingShift.finishTime
      numOfShiftsPerDay := updateData.numOfShiftsPerDay.getD
        existingShift.numOfShiftsPerDay
      location := resolved.1.getD existingShift.location
      date := updateData.date.getD existingShift.date
      status := existingShift.status
      clockInTime := existingShift.clockInTime
      clockOutTime := existingShift.clockOutTime }
  (replaceShift resolved.2 shiftId newShift, newShift)

/-- Embedding of updateShift: the shift must exist and be Scheduled (the
failure message names the current status); a supplied user must exist;
then the patch is applied as in applyShiftUpdate. -/
def updateShift (w : World) (shiftId : Nat) (updateData : ShiftPatch) :
    Except ThrownError (World × Shift) :=
  match lookupShift w shiftId with
  | none =>
      .error { message := "Shift not found", statusCode := 404
               errorCode := some "SHIFT_NOT_FOUND" }
  | some existingShift =>
      if existingShift.status ≠ ShiftStatus.Scheduled then
        .error { message := "Cannot update shift as it is " ++
                   existingShift.status.text
                 statusCode := 400
                 errorCode := some "INVALID_SHIFT_STATUS" }
      else
        match updateData.user with
        | some u =>
            if userExists w u = false then
              .error { message := "User not found", statusCode := 404
                       errorCode := some "USER_NOT_FOUND" }
            else .ok (applyShiftUpdate w shiftId existingShift updateData)
        | none => .ok (applyShiftUpdate w shiftId existingShift updateData)

/-- Embedding of cancelShift: a missing shift, an already Cancelled
shift and a Completed shift are three distinct refusals; otherwise only
the status field is set to Cancelled. -/
def cancelShift (w : World) (shiftId : Nat) : Except ThrownError World :=
  match lookupShift w shiftId with
  | none =>
      .error { message := "Shift not found", statusCode := 404
               errorCode := some "SHIFT_NOT_FOUND" }
  | some existingShift =>
      if existingShift.status = ShiftStatus.Cancelled then
        .error { message := "Shift is already cancelled", statusCode := 400
                 errorCode := some "SHIFT_ALREADY_CANCELLED" }
      else if existingShift.status = ShiftStatus.Completed then
        .error { message := "Cannot cancel a completed shift", statusCode := 400
                 errorCode := some "SHIFT_ALREADY_COMPLETED" }
      else
        .ok (replaceShift w shiftId
          { existingShift with status := ShiftStatus.Cancelled })

/-- Embedding of clockInShift: existence, assignment and status checks,
then the clock-in window check; on a window failure the errorCode is
chosen by searching the validation message for the substring
"too early".  The process clock reading `now` is an explicit argument;
the response projection is dropped. -/
def clockInShift (w : World) (now : Int) (shiftId userId : Nat) :
    Except ThrownError (World × Shift) :=
  match lookupShift w shiftId with
  | none =>
      .error { message := "Shift not found", statusCode := 404
               errorCode := some "SHIFT_NOT_FOUND" }
  | some shift =>
      if shift.user ≠ userId then
        .error { message := "You are not assigned to this shift"
                 statusCode := 403
                 errorCode := some "UNAUTHORIZED_SHIFT_ACCESS" }
      else if shift.status ≠ ShiftStatus.Scheduled then
        .error { message := "Can only clock in to scheduled shifts"
                 statusCode := 400
                 errorCode := some "INVALID_SHIFT_STATUS" }
      else
        let clockInValidation := validateClockInTime now shift.startTime
          shift.finishTime SHIFT_CONSTRAINTS.EARLY_CLOCK_IN_BUFFER
        if clockInValidation.isValid = false then
          .error { message := clockInValidation.message
                   statusCode := 400
                   errorCode := some
                     (if strIncludes clockInValidation.message "too early" then
                       "CLOCK_IN_TOO_EARLY"
                     else "SHIFT_TIME_EXPIRED") }
        else
          let newShift :=
            { shift with status := ShiftStatus.InProgress
                         clockInTime := some now }
          .ok (replaceShift w shiftId newShift, newShift)

/-- Embedding of clockOutShift: existence, assignment and status checks,
then the clock-out window check with the fixed errorCode
CLOCK_OUT_TOO_EARLY. -/
def clockOutShift (w : World) (now : Int) (shiftId userId : Nat) :
    Except ThrownError (World × Shift) :=
  match lookupShift w shiftId with
  | none =>
      .error { message := "Shift not found", statusCode := 404
               errorCode := some "SHIFT_NOT_FOUND" }
  | some shift =>
      if shift.user ≠ userId then
        .error { message := "You are not assigned to this shift"
                 statusCode := 403
                 errorCode := some "UNAUTHORIZED_SHIFT_ACCESS" }
      else if shift.status ≠ ShiftStatus.InProgress then
        .error { message := "Can only clock out from shifts in progress"
                 statusCode := 400
                 errorCode := some "INVALID_SHIFT_STATUS" }
      else
        let clockOutValidation := validateClockOutTime now shift.finishTime
          SHIFT_CONSTRAINTS.MINIMUM_CLOCK_OUT_BUFFER
        if clockOutValidation.isValid = false then
          .error { message := clockOutValidation.message
                   statusCode := 400
                   errorCode := some "CLOCK_OUT_TOO_EARLY" }
        else
          let newShift :=
            { shift with status := ShiftStatus.Completed
                         clockOutTime := some now }
          .ok (replaceShift w shiftId newShift, newShift)

/-- A batch item: an optional identifier (present means update, absent
means create) together with the shift payload. -/
structure BatchItem where
  id : Option Nat
  data : ShiftData
deriving DecidableEq, Repr

/-- The rest spread of a batch item used for the update path: every
payload field supplied as the patch value. -/
def toFullPatch (d : ShiftData) : ShiftPatch :=
  { title := some d.title
    role := some d.role
    typeOfShift := some d.typeOfShift
    user := some d.user
    startTime := some d.startTime
    finishTime := some d.finishTime
    numOfShiftsPerDay := d.numOfShiftsPerDay
    location := some d.location
    date := some d.date }

/-- The per item error record of a batch result: the message of the
caught error, and its errorCode when it has one, with a fallback of
UNKNOWN_ERROR otherwise (error.errorCode or UNKNOWN_ERROR). -/
structure ItemError where
  message : String
  errorCode : String
deriving DecidableEq, Repr

/-- The catch clause of the batch loop applied to a caught error. -/
def mkItemError (e : ThrownError) : ItemError :=
  { message := e.message, errorCode := e.errorCode.getD "UNKNOWN_ERROR" }

/-- One errors entry of a batch result: the 0 based input index, the
offending payload and the structured reason. -/
structure BatchErrorEntry where
  index : Nat
  shift : BatchItem
  error : ItemError
deriving DecidableEq, Repr

/-- The three bucket result of batchCreateUpdateShifts. -/
structure BatchResults where
  created : List Shift
  updated : List Shift
  errors : List BatchErrorEntry
deriving DecidableEq, Repr

/-- The loop of batchCreateUpdateShifts: each item is processed in input
order against the store state left by the previous items; an item with
an id goes to updateShift, one without to createShift; a thrown error is
caught and recorded with the item's index and payload and the loop
continues.  The source pushes onto three accumulator arrays; that is
rendered here as a cons onto the result of the remaining items, which
produces the same three lists in the same order. -/
def batchLoop (w : World) : List BatchItem → Nat → BatchResults
  | [], _ => { created := [], updated := [], errors := [] }
  | item :: rest, i =>
      match item.id with
      | some sid =>
          match updateShift w sid (toFullPatch item.data) with
          | .ok (w1, s) =>
              let r := batchLoop w1 rest (i + 1)
              { r with updated := s :: r.updated }
          | .error e =>
              let r := batchLoop w rest (i + 1)
              { r with errors :=
                  { index := i, shift := item, error := mkItemError e } :: r.errors }
      | none =>
          match createShift w item.data with
          | .ok (w1, s) =>
              let r := batchLoop w1 rest (i + 1)
              { r with created := s :: r.created }
          | .error e =>
              let r := batchLoop w rest (i + 1)
              { r with errors :=
                  { index := i, shift := item, error := mkItemError e } :: r.errors }

/-- Embedding of batchCreateUpdateShifts. -/
def batchCreateUpdateShifts (w : World) (shiftsData : List BatchItem) :
    BatchResults :=
  batchLoop w shiftsData 0

/-- Pagination metadata block of a query result. -/
structure PaginationMeta where
  currentPage : Nat
  totalPages : Nat
  totalCount : Nat
  hasNextPage : Bool
  hasPrevPage : Bool
  limit : Nat
deriving DecidableEq, Repr

/-- A paginated query result. -/
structure PaginatedShifts where
  shifts : List Shift
  pagination : PaginationMeta
deriving DecidableEq, Repr

/-- The status filter merged into the store query when a status option is
present. -/
def filterByStatus (storeShifts : List Shift) (status : Option ShiftStatus) :
    List Shift :=
  match status with
  | some st => storeShifts.filter (fun s => decide (s.status = st))
  | none => storeShifts

/-- Embedding of getShiftsWithPagination.  The store's find result is the
given list (its order standing for the requested sort order; sorting
permutes the collection and so changes neither the count nor the
metadata); skip is (page - 1) * limit, at most limit records are taken,
and Math.ceil(totalCount / limit) is Nat division (totalCount + limit -
1) / limit for positive limit.  Page and limit defaults and the bound
limit ≤ 1000 are enforced by the upstream schema. -/
def getShiftsWithPagination (storeShifts : List Shift)
    (status : Option ShiftStatus) (page limit : Nat) : PaginatedShifts :=
  let skip := (page - 1) * limit
  let matching := filterByStatus storeShifts status
  let totalCount := matching.length
  let shifts := (matching.drop skip).take limit
  let totalPages := (totalCount + limit - 1) / limit
  { shifts := shifts
    pagination :=
      { currentPage := page
        totalPages := totalPages
        totalCount := totalCount
        hasNextPage := decide (page < totalPages)
        hasPrevPage := decide (1 < page)
        limit := limit } }

/-- Sample coordinate pair for concrete instances. -/
def sampleCordinates : Cordinates := { longitude := -2, latitude := 53 }

/-- Sample location payload. -/
def samplePayload : LocationPayload :=
  { name := "Central Clinic", address := "1 High St", postCode := "M1 1AA"
    cordinates := sampleCordinates }

/-- A payload with the same name as samplePayload but different details. -/
def samplePayloadAlt : LocationPayload :=
  { name := "Central Clinic", address := "9 New Rd", postCode := "M2 2BB"
    cordinates := { longitude := 0, latitude := 51 } }

/-- Stored location document matching samplePayload. -/
def sampleLocationDoc : Location :=
  { id := 7, name := "Central Clinic", address := "1 High St"
    postCode := "M1 1AA", cordinates := sampleCordinates }

/-- A Scheduled overnight shift: date 100, 22:00 to 06:00 the next day. -/
def baseShift : Shift :=
  { title := "Night Cover", role := "Nurse", typeOfShift := ["Night"]
    user := 1, startTime := 145320, finishTime := 145800
    numOfShiftsPerDay := 1, location := 7, date := 100
    status := ShiftStatus.Scheduled, clockInTime := none, clockOutTime := none }

/-- The same shift already in progress. -/
def inProgressShift : Shift :=
  { baseShift with status := ShiftStatus.InProgress, clockInTime := some 145330 }

/-- A store holding one Scheduled shift under identifier 5, one user 1. -/
def worldScheduled : World :=
  { users := [1], locations := [sampleLocationDoc]
    shifts := [(5, baseShift)], nextId := 10 }

/-- A store holding the in progress shift under identifier 5. -/
def worldInProgress : World :=
  { users := [1], locations := [sampleLocationDoc]
    shifts := [(5, inProgressShift)], nextId := 10 }

/-- C1: for every calendar date and every valid pair of HH:MM clock
times, createShiftDateTimes anchors the start at the given date with the
start clock time and returns a finish strictly after the start; whenever
the finish clock time is at or before the start clock time the finish
instant is exactly one calendar day after the date at the finish clock
time, and equal clock times give exactly a 24 hour shift. -/
theorem createShiftDateTimes_overnight_correct (D : Int) (s f : TimeHM)
    (hsh : s.hours < 24) (hsm : s.minutes < 60)
    (hfh : f.hours < 24) (hfm : f.minutes < 60) :
    (createShiftDateTimes D s f).startDateTime = createDateTime D s ∧
    (createShiftDateTimes D s f).startDateTime <
      (createShiftDateTimes D s f).finishDateTime ∧
    (f.toMinutes ≤ s.toMinutes →
      (createShiftDateTimes D s f).finishDateTime = createDateTime (D + 1) f) ∧
    (f.toMinutes = s.toMinutes →
      (createShiftDateTimes D s f).finishDateTime = createDateTime D s + 1440) := by
  simp only [createShiftDateTimes, createDateTime, TimeHM.toMinutes]
  split
  case isTrue h =>
    refine ⟨rfl, ?_, ?_, ?_⟩ <;> dsimp only <;> omega
  case isFalse h =>
    refine ⟨rfl, ?_, ?_, ?_⟩ <;> dsimp only <;> omega

/-- Witness for C1 at the spec's own example: an overnight 22:00 to
06:00 shift. -/
theorem createShiftDateTimes_overnight_correct_witness :
    (createShiftDateTimes 100 ⟨22, 0⟩ ⟨6, 0⟩).startDateTime =
      createDateTime 100 ⟨22, 0⟩ ∧
    (createShiftDateTimes 100 ⟨22, 0⟩ ⟨6, 0⟩).startDateTime <
      (createShiftDateTimes 100 ⟨22, 0⟩ ⟨6, 0⟩).finishDateTime ∧
    ((⟨6, 0⟩ : TimeHM).toMinutes ≤ (⟨22, 0⟩ : TimeHM).toMinutes →
      (createShiftDateTimes 100 ⟨22, 0⟩ ⟨6, 0⟩).finishDateTime =
        createDateTime (100 + 1) ⟨6, 0⟩) ∧
    ((⟨6, 0⟩ : TimeHM).toMinutes = (⟨22, 0⟩ : TimeHM).toMinutes →
      (createShiftDateTimes 100 ⟨22, 0⟩ ⟨6, 0⟩).finishDateTime =
        createDateTime 100 ⟨22, 0⟩ + 1440) :=
  createShiftDateTimes_overnight_correct 100 ⟨22, 0⟩ ⟨6, 0⟩
    (by decide) (by decide) (by decide) (by decide)

/-- C2 counterexample: cancelling a shift whose status is In Progress
succeeds and sets the status to Cancelled, so cancel does not require
the Scheduled status. -/
theorem cancelShift_accepts_in_progress :
    inProgressShift.status = ShiftStatus.InProgress ∧
    lookupShift worldInProgress 5 = some inProgressShift ∧
    cancelShift worldInProgress 5 =
      .ok (replaceShift worldInProgress 5
        { inProgressShift with status := ShiftStatus.Cancelled }) :=
  ⟨rfl, rfl, rfl⟩

/-- C2 amended: cancel succeeds, setting only the status field to
Cancelled, exactly when the current status is neither Cancelled nor
Completed (so Scheduled or In Progress); cancelling a Cancelled shift
fails with the distinct already cancelled refusal and a Completed one
with the distinct completed refusal, and a failure returns no store, so
the shift is unchanged. -/
theorem cancelShift_status_cases (w : World) (shiftId : Nat) (s : Shift)
    (hfind : lookupShift w shiftId = some s) :
    (s.status = ShiftStatus.Cancelled →
      cancelShift w shiftId = .error
        { message := "Shift is already cancelled", statusCode := 400
          errorCode := some "SHIFT_ALREADY_CANCELLED" }) ∧
    (s.status = ShiftStatus.Completed →
      cancelShift w shiftId = .error
        { message := "Cannot cancel a completed shift", statusCode := 400
          errorCode := some "SHIFT_ALREADY_COMPLETED" }) ∧
    (s.status ≠ ShiftStatus.Cancelled → s.status ≠ ShiftStatus.Completed →
      cancelShift w shiftId =
        .ok (replaceShift w shiftId { s with status := ShiftStatus.Cancelled })) := by
  unfold cancelShift
  rw [hfind]
  refine ⟨fun h1 => ?_, fun h2 => ?_, fun h1 h2 => ?_⟩
  · simp [h1]
  · have : s.status ≠ ShiftStatus.Cancelled := by rw [h2]; intro hc; cases hc
    simp [this, h2]
  · simp [h1, h2]

/-- Witness for C2 amended at a Scheduled shift. -/
theorem cancelShift_status_cases_witness :
    (baseShift.status = ShiftStatus.Cancelled →
      cancelShift worldScheduled 5 = .error
        { message := "Shift is already cancelled", statusCode := 400
          errorCode := some "SHIFT_ALREADY_CANCELLED" }) ∧
    (baseShift.status = ShiftStatus.Completed →
      cancelShift worldScheduled 5 = .error
        { message := "Cannot cancel a completed shift", statusCode := 400
          errorCode := some "SHIFT_ALREADY_COMPLETED" }) ∧
    (baseShift.status ≠ ShiftStatus.Cancelled →
      baseShift.status ≠ ShiftStatus.Completed →
      cancelShift worldScheduled 5 =
        .ok (replaceShift worldScheduled 5
          { baseShift with status := ShiftStatus.Cancelled })) :=
  cancelShift_status_cases worldScheduled 5 baseShift rfl

/-- C3 divergence: the too early failure message does not contain the
substring searched for by the errorCode selection, so a too early
clock-in and an expired clock-in both carry the errorCode
SHIFT_TIME_EXPIRED; the messages differ but the machine readable codes
do not.  The shift runs from instant 145320 to 145800; instant 145290 is
30 minutes early (below the 10 minute buffer) and instant 145830 is 30
minutes past the finish. -/
theorem clockInShift_errorCode_not_distinguished :
    clockInShift worldScheduled 145290 5 1 = .error
      { message := "Cannot clock in more than 10 minutes before shift starts"
        statusCode := 400, errorCode := some "SHIFT_TIME_EXPIRED" } ∧
    clockInShift worldScheduled 145830 5 1 = .error
      { message := "Cannot clock in after shift end time"
        statusCode := 400, errorCode := some "SHIFT_TIME_EXPIRED" } ∧
    strIncludes "Cannot clock in more than 10 minutes before shift starts"
      "too early" = false :=
  ⟨rfl, rfl, rfl⟩

/-- C7: for every In Progress shift assigned to the calling worker,
clock-out succeeds exactly when the current instant is at or after the
finish instant minus MINIMUM_CLOCK_OUT_BUFFER, whose value is 120
minutes; there is no upper bound on the clock-out instant, and the
refusal message states the buffer value. -/
theorem clockOutShift_window (w : World) (now : Int) (shiftId userId : Nat)
    (s : Shift) (hfind : lookupShift w shiftId = some s)
    (huser : s.user = userId) (hstatus : s.status = ShiftStatus.InProgress) :
    SHIFT_CONSTRAINTS.MINIMUM_CLOCK_OUT_BUFFER = 120 ∧
    ((∃ r, clockOutShift w now shiftId userId = .ok r) ↔
      s.finishTime - 120 ≤ now) ∧
    (now < s.finishTime - 120 →
      clockOutShift w now shiftId userId = .error
        { message := "Cannot clock out more than 120 minutes before shift ends"
          statusCode := 400, errorCode := some "CLOCK_OUT_TOO_EARLY" }) := by
  have hmsg : "Cannot clock out more than " ++ toString (120 : Int) ++
      " minutes before shift ends" =
      "Cannot clock out more than 120 minutes before shift ends" := rfl
  unfold clockOutShift
  rw [hfind]
  dsimp only
  have h1 : ¬(s.user ≠ userId) := by simp [huser]
  have h2 : ¬(s.status ≠ ShiftStatus.InProgress) := by simp [hstatus]
  rw [if_neg h1, if_neg h2]
  simp only [validateClockOutTime, SHIFT_CONSTRAINTS]
  refine ⟨trivial, ?_, ?_⟩
  · by_cases hlt : now < s.finishTime - 120
    · rw [if_pos hlt]
      constructor
      · intro hr
        rcases hr with ⟨r, hr⟩
        simp at hr
      · intro hle
        omega
    · rw [if_neg hlt]
      constructor
      · intro _
        omega
      · intro _
        exact ⟨_, rfl⟩
  · intro hlt
    rw [if_pos hlt]
    rfl

/-- Witness for C7: the in progress shift finishing at instant 145800,
clock-out attempted at instant 145700 (inside the buffer window). -/
theorem clockOutShift_window_witness :
    SHIFT_CONSTRAINTS.MINIMUM_CLOCK_OUT_BUFFER = 120 ∧
    ((∃ r, clockOutShift worldInProgress 145700 5 1 = .ok r) ↔
      inProgressShift.finishTime - 120 ≤ 145700) ∧
    (145700 < inProgressShift.finishTime - 120 →
      clockOutShift worldInProgress 145700 5 1 = .error
        { message := "Cannot clock out more than 120 minutes before shift ends"
          statusCode := 400, errorCode := some "CLOCK_OUT_TOO_EARLY" }) :=
  clockOutShift_window worldInProgress 145700 5 1 inProgressShift rfl rfl rfl

/-- C8: location resolution is idempotent by name.  Resolving a payload
whose name matches an existing record returns that record and leaves the
store unchanged, the submitted details being ignored; in particular a
second resolution with the same name and any details returns exactly the
record and store of the first resolution, so two shifts created with
identically named locations reference one Location document. -/
theorem findOrCreateLocation_idempotent_by_name (store : List Location)
    (d1 d2 : LocationPayload) (n1 n2 : Nat) (hname : d2.name = d1.name) :
    findOrCreateLocation ((findOrCreateLocation store d1 n1).2) d2 n2 =
      ((findOrCreateLocation store d1 n1).1,
        (findOrCreateLocation store d1 n1).2) ∧
    (∀ l, store.find? (fun x => x.name == d1.name) = some l →
      findOrCreateLocation store d1 n1 = (l, store)) := by
  constructor
  · unfold findOrCreateLocation
    cases h : store.find? (fun l => l.name == d1.name) with
    | some l =>
        simp only [hname, h]
    | none =>
        simp only [hname, h]
        simp only [List.find?_append, h, Option.none_or, List.find?_cons,
          List.find?_nil]
        simp
  · intro l hl
    unfold findOrCreateLocation
    rw [hl]

/-- Witness for C8: an empty store, the sample payload resolved twice,
the second time with different address and coordinates. -/
theorem findOrCreateLocation_idempotent_by_name_witness :
    findOrCreateLocation ((findOrCreateLocation [] samplePayload 0).2)
        samplePayloadAlt 1 =
      ((findOrCreateLocation [] samplePayload 0).1,
        (findOrCreateLocation [] samplePayload 0).2) ∧
    (∀ l, ([] : List Location).find? (fun x => x.name == samplePayload.name) =
        some l →
      findOrCreateLocation [] samplePayload 0 = (l, [])) :=
  findOrCreateLocation_idempotent_by_name [] samplePayload samplePayloadAlt 0 1
    rfl

/-- Three stored shifts, for the concrete pagination scenario. -/
def threeShifts : List Shift :=
  [baseShift, { baseShift with title := "B" }, { baseShift with title := "C" }]

/-- C5: for every query with page and limit in range, the query engine
skips exactly (page - 1) * limit records of the matching collection,
returns at most limit records, and the metadata echoes the page and
limit, reports the matching count, has totalPages the ceiling of
totalCount / limit (0 when totalCount is 0, pinned here by the two
bracketing inequalities), hasNextPage = (page < totalPages) and
hasPrevPage = (page > 1); in particular for totalCount 3, limit 2,
page 2 the result has 1 shift, hasNextPage false, hasPrevPage true and
totalPages 2. -/
theorem getShiftsWithPagination_spec (storeShifts : List Shift)
    (status : Option ShiftStatus) (page limit : Nat)
    (hpage : 1 ≤ page) (hlim1 : 1 ≤ limit) (hlim2 : limit ≤ 1000) :
    (getShiftsWithPagination storeShifts status page limit).shifts =
      ((filterByStatus storeShifts status).drop ((page - 1) * limit)).take
        limit ∧
    (getShiftsWithPagination storeShifts status page limit).shifts.length ≤
      limit ∧
    (getShiftsWithPagination storeShifts status page
      limit).pagination.currentPage = page ∧
    (getShiftsWithPagination storeShifts status page
      limit).pagination.totalCount = (filterByStatus storeShifts status).length ∧
    (getShiftsWithPagination storeShifts status page limit).pagination.limit =
      limit ∧
    ((filterByStatus storeShifts status).length = 0 →
      (getShiftsWithPagination storeShifts status page
        limit).pagination.totalPages = 0) ∧
    (filterByStatus storeShifts status).length ≤
      (getShiftsWithPagination storeShifts status page
        limit).pagination.totalPages * limit ∧
    (getShiftsWithPagination storeShifts status page
      limit).pagination.totalPages * limit <
      (filterByStatus storeShifts status).length + limit ∧
    (getShiftsWithPagination storeShifts status page
      limit).pagination.hasNextPage =
      decide (page < (getShiftsWithPagination storeShifts status page
        limit).pagination.totalPages) ∧
    (getShiftsWithPagination storeShifts status page
      limit).pagination.hasPrevPage = decide (1 < page) ∧
    (getShiftsWithPagination threeShifts none 2 2).shifts.length = 1 ∧
    (getShiftsWithPagination threeShifts none 2 2).pagination.hasNextPage =
      false ∧
    (getShiftsWithPagination threeShifts none 2 2).pagination.hasPrevPage =
      true ∧
    (getShiftsWithPagination threeShifts none 2 2).pagination.totalPages = 2 := by
  unfold getShiftsWithPagination
  dsimp only
  refine ⟨rfl, List.length_take_le _ _, rfl, rfl, rfl, ?_, ?_, ?_, rfl, rfl,
    by decide, by decide, by decide, by decide⟩
  · intro h
    rw [h]
    exact Nat.div_eq_of_lt (by omega)
  · have hB : (filterByStatus storeShifts status).length + limit - 1 <
        (((filterByStatus storeShifts status).length + limit - 1) / limit + 1) *
          limit :=
      (Nat.div_lt_iff_lt_mul hlim1).mp (Nat.lt_succ_self _)
    rw [Nat.succ_mul] at hB
    generalize hX : ((filterByStatus storeShifts status).length + limit - 1) /
      limit * limit = X at hB ⊢
    omega
  · have hA : ((filterByStatus storeShifts status).length + limit - 1) / limit *
        limit ≤ (filterByStatus storeShifts status).length + limit - 1 :=
      Nat.div_mul_le_self _ _
    generalize hX : ((filterByStatus storeShifts status).length + limit - 1) /
      limit * limit = X at hA ⊢
    omega

/-- Witness for C5 at the spec's concrete scenario: 3 records, limit 2,
page 2. -/
theorem getShiftsWithPagination_spec_witness :
    (getShiftsWithPagination threeShifts none 2 2).shifts =
      ((filterByStatus threeShifts none).drop ((2 - 1) * 2)).take 2 ∧
    (getShiftsWithPagination threeShifts none 2 2).shifts.length ≤ 2 ∧
    (getShiftsWithPagination threeShifts none 2 2).pagination.currentPage = 2 ∧
    (getShiftsWithPagination threeShifts none 2 2).pagination.totalCount =
      (filterByStatus threeShifts none).length ∧
    (getShiftsWithPagination threeShifts none 2 2).pagination.limit = 2 ∧
    ((filterByStatus threeShifts none).length = 0 →
      (getShiftsWithPagination threeShifts none 2 2).pagination.totalPages = 0) ∧
    (filterByStatus threeShifts none).length ≤
      (getShiftsWithPagination threeShifts none 2 2).pagination.totalPages * 2 ∧
    (getShiftsWithPagination threeShifts none 2 2).pagination.totalPages * 2 <
      (filterByStatus threeShifts none).length + 2 ∧
    (getShiftsWithPagination threeShifts none 2 2).pagination.hasNextPage =
      decide (2 < (getShiftsWithPagination threeShifts none
        2 2).pagination.totalPages) ∧
    (getShiftsWithPagination threeShifts none 2 2).pagination.hasPrevPage =
      decide (1 < 2) ∧
    (getShiftsWithPagination threeShifts none 2 2).shifts.length = 1 ∧
    (getShiftsWithPagination threeShifts none 2 2).pagination.hasNextPage =
      false ∧
    (getShiftsWithPagination threeShifts none 2 2).pagination.hasPrevPage =
      true ∧
    (getShiftsWithPagination threeShifts none 2 2).pagination.totalPages = 2 :=
  getShiftsWithPagination_spec threeShifts none 2 2 (by decide) (by decide)
    (by decide)

/-- C10: requesting a page past the last one is not an error: when
(page - 1) * limit is at least the matching count, the engine returns an
empty shifts list, currentPage still echoes the requested page,
hasNextPage is false, and hasPrevPage is true exactly when page > 1. -/
theorem getShiftsWithPagination_beyond_last (storeShifts : List Shift)
    (status : Option ShiftStatus) (page limit : Nat)
    (hpage : 1 ≤ page) (hlim : 1 ≤ limit)
    (hbeyond : (filterByStatus storeShifts status).length ≤ (page - 1) * limit) :
    (getShiftsWithPagination storeShifts status page limit).shifts = [] ∧
    (getShiftsWithPagination storeShifts status page
      limit).pagination.currentPage = page ∧
    (getShiftsWithPagination storeShifts status page
      limit).pagination.hasNextPage = false ∧
    (getShiftsWithPagination storeShifts status page
      limit).pagination.hasPrevPage = decide (1 < page) := by
  unfold getShiftsWithPagination
  dsimp only
  refine ⟨?_, rfl, ?_, rfl⟩
  · rw [List.drop_eq_nil_of_le hbeyond]
    exact List.take_nil
  · have hq : ((filterByStatus storeShifts status).length + limit - 1) / limit <
        page := by
      rw [Nat.div_lt_iff_lt_mul hlim]
      have hmul : (page - 1) * limit + limit = page * limit := by
        have h1 : page - 1 + 1 = page := Nat.succ_pred_eq_of_pos hpage
        calc (page - 1) * limit + limit
            = ((page - 1) + 1) * limit := (Nat.succ_mul _ _).symm
          _ = page * limit := by rw [h1]
      generalize hX : (page - 1) * limit = X at hbeyond hmul
      generalize hY : page * limit = Y at hmul ⊢
      omega
    simp only [decide_eq_false_iff_not]
    omega

/-- Witness for C10: page 5 of the three record collection with limit
2. -/
theorem getShiftsWithPagination_beyond_last_witness :
    (getShiftsWithPagination threeShifts none 5 2).shifts = [] ∧
    (getShiftsWithPagination threeShifts none 5 2).pagination.currentPage = 5 ∧
    (getShiftsWithPagination threeShifts none 5 2).pagination.hasNextPage =
      false ∧
    (getShiftsWithPagination threeShifts none 5 2).pagination.hasPrevPage =
      decide (1 < 5) :=
  getShiftsWithPagination_beyond_last threeShifts none 5 2 (by decide)
    (by decide) (by decide)

/-- A complete create payload for user 1 at the sample location. -/
def goodCreateData : ShiftData :=
  { title := "Day Cover", role := "Nurse", typeOfShift := ["Morning"]
    user := 1, startTime := ⟨9, 0⟩, finishTime := ⟨17, 0⟩
    numOfShiftsPerDay := none, location := samplePayload, date := 100 }

/-- The same payload referencing the non existent user 99. -/
def badUserData : ShiftData := { goodCreateData with user := 99 }

/-- A two item batch whose first item fails (unknown user) and whose
second succeeds. -/
def batchItems : List BatchItem :=
  [{ id := none, data := badUserData }, { id := none, data := goodCreateData }]

/-- A store with one user and nothing else, for the batch scenario. -/
def batchWorld : World :=
  { users := [1], locations := [], shifts := [], nextId := 0 }

/-- Every input item lands in exactly one of the three result buckets:
the bucket lengths sum to the input length. -/
theorem batchLoop_length (items : List BatchItem) (w : World) (i : Nat) :
    (batchLoop w items i).created.length +
      (batchLoop w items i).updated.length +
      (batchLoop w items i).errors.length = items.length := by
  induction items generalizing w i with
  | nil => rfl
  | cons item rest ih =>
      cases hid : item.id with
      | some sid =>
          cases hu : updateShift w sid (toFullPatch item.data) with
          | ok res =>
              obtain ⟨w1, s⟩ := res
              simp only [batchLoop, hid, hu]
              have := ih w1 (i + 1)
              simp only [List.length_cons]
              omega
          | error e =>
              simp only [batchLoop, hid, hu]
              have := ih w (i + 1)
              simp only [List.length_cons]
              omega
      | none =>
          cases hc : createShift w item.data with
          | ok res =>
              obtain ⟨w1, s⟩ := res
              simp only [batchLoop, hid, hc]
              have := ih w1 (i + 1)
              simp only [List.length_cons]
              omega
          | error e =>
              simp only [batchLoop, hid, hc]
              have := ih w (i + 1)
              simp only [List.length_cons]
              omega

/-- Every error entry of the batch loop started at index i records an
input position at or past i within the input list, the payload stored at
that position, and a reason produced by the catch clause from some
thrown error. -/
theorem batchLoop_errors_mem (items : List BatchItem) (w : World) (i : Nat) :
    ∀ e ∈ (batchLoop w items i).errors,
      i ≤ e.index ∧ e.index < i + items.length ∧
      items[e.index - i]? = some e.shift ∧
      ∃ te : ThrownError, e.error = mkItemError te := by
  induction items generalizing w i with
  | nil => intro e he; simp [batchLoop] at he
  | cons item rest ih =>
      intro e he
      have step : ∀ w1, e ∈ (batchLoop w1 rest (i + 1)).errors →
          i ≤ e.index ∧ e.index < i + (item :: rest).length ∧
          (item :: rest)[e.index - i]? = some e.shift ∧
          ∃ te : ThrownError, e.error = mkItemError te := by
        intro w1 hmem
        obtain ⟨h1, h2, h3, h4⟩ := ih w1 (i + 1) e hmem
        refine ⟨by omega, by simp only [List.length_cons]; omega, ?_, h4⟩
        have hidx : e.index - i = (e.index - (i + 1)) + 1 := by omega
        rw [hidx, List.getElem?_cons_succ]
        exact h3
      have entryCase : ∀ te : ThrownError,
          e = { index := i, shift := item, error := mkItemError te } →
          i ≤ e.index ∧ e.index < i + (item :: rest).length ∧
          (item :: rest)[e.index - i]? = some e.shift ∧
          ∃ te2 : ThrownError, e.error = mkItemError te2 := by
        intro te hE
        subst hE
        refine ⟨le_refl i, by simp only [List.length_cons]; omega, ?_, ⟨te, rfl⟩⟩
        simp
      cases hid : item.id with
      | some sid =>
          cases hu : updateShift w sid (toFullPatch item.data) with
          | ok res =>
              obtain ⟨w1, s⟩ := res
              simp only [batchLoop, hid, hu] at he
              exact step w1 he
          | error te =>
              simp only [batchLoop, hid, hu] at he
              rcases List.mem_cons.mp he with hE | hmem
              · exact entryCase te hE
              · exact step w hmem
      | none =>
          cases hc : createShift w item.data with
          | ok res =>
              obtain ⟨w1, s⟩ := res
              simp only [batchLoop, hid, hc] at he
              exact step w1 he
          | error te =>
              simp only [batchLoop, hid, hc] at he
              rcases List.mem_cons.mp he with hE | hmem
              · exact entryCase te hE
              · exact step w hmem

/-- The error entries of the batch loop appear in strictly increasing
input order, so a failed item contributes exactly one entry. -/
theorem batchLoop_errors_sorted (items : List BatchItem) (w : World) (i : Nat) :
    List.Pairwise (fun a b => a.index < b.index) (batchLoop w items i).errors := by
  induction items generalizing w i with
  | nil => simp [batchLoop]
  | cons item rest ih =>
      have consCase : ∀ te : ThrownError, List.Pairwise
          (fun a b => a.index < b.index)
          ({ index := i, shift := item, error := mkItemError te } ::
            (batchLoop w rest (i + 1)).errors) := by
        intro te
        refine List.Pairwise.cons ?_ (ih w (i + 1))
        intro b hb
        have := (batchLoop_errors_mem rest w (i + 1) b hb).1
        dsimp only
        omega
      cases hid : item.id with
      | some sid =>
          cases hu : updateShift w sid (toFullPatch item.data) with
          | ok res =>
              obtain ⟨w1, s⟩ := res
              simp only [batchLoop, hid, hu]
              exact ih w1 (i + 1)
          | error te =>
              simp only [batchLoop, hid, hu]
              exact consCase te
      | none =>
          cases hc : createShift w item.data with
          | ok res =>
              obtain ⟨w1, s⟩ := res
              simp only [batchLoop, hid, hc]
              exact ih w1 (i + 1)
          | error te =>
              simp only [batchLoop, hid, hc]
              exact consCase te

/-- C4: batchCreateUpdateShifts processes the items independently in
input order; every failed item yields exactly one errors entry (the
entries carry strictly increasing input indices) recording its 0 based
input index, its payload, and a structured reason built by the catch
clause, the bucket lengths sum to the input length, and in the concrete
two item batch whose first item references an unknown user the failure
does not abort the second item: one error for index 0 and one created
shift. -/
theorem batchCreateUpdateShifts_isolates_failures (w : World)
    (items : List BatchItem) :
    (batchCreateUpdateShifts w items).created.length +
      (batchCreateUpdateShifts w items).updated.length +
      (batchCreateUpdateShifts w items).errors.length = items.length ∧
    (∀ e ∈ (batchCreateUpdateShifts w items).errors,
      e.index < items.length ∧ items[e.index]? = some e.shift ∧
      ∃ te : ThrownError, e.error = mkItemError te) ∧
    List.Pairwise (fun a b => a.index < b.index)
      (batchCreateUpdateShifts w items).errors ∧
    (batchCreateUpdateShifts batchWorld batchItems).errors =
      [{ index := 0, shift := { id := none, data := badUserData }
         error := { message := "User not found"
                    errorCode := "USER_NOT_FOUND" } }] ∧
    (batchCreateUpdateShifts batchWorld batchItems).created.length = 1 := by
  refine ⟨batchLoop_length items w 0, ?_,
    batchLoop_errors_sorted items w 0, by rfl, by rfl⟩
  intro e he
  obtain ⟨h1, h2, h3, h4⟩ := batchLoop_errors_mem items w 0 e he
  rw [Nat.sub_zero] at h3
  rw [Nat.zero_add] at h2
  exact ⟨h2, h3, h4⟩

/-- C9: the batch loop never propagates a per item failure: every input
item is processed and lands in a bucket, every errors entry's reason is
the catch clause image of the thrown error, and that clause keeps the
thrown errorCode when present and falls back to UNKNOWN_ERROR when the
caught error carries none. -/
theorem batchCreateUpdateShifts_absorbs_failures (w : World)
    (items : List BatchItem) :
    (batchCreateUpdateShifts w items).created.length +
      (batchCreateUpdateShifts w items).updated.length +
      (batchCreateUpdateShifts w items).errors.length = items.length ∧
    (∀ e ∈ (batchCreateUpdateShifts w items).errors,
      ∃ te : ThrownError, e.error = mkItemError te) ∧
    (∀ te : ThrownError, te.errorCode = none →
      (mkItemError te).errorCode = "UNKNOWN_ERROR") ∧
    (∀ te : ThrownError, ∀ c : String, te.errorCode = some c →
      (mkItemError te).errorCode = c) := by
  refine ⟨batchLoop_length items w 0, ?_, ?_, ?_⟩
  · intro e he
    exact (batchLoop_errors_mem items w 0 e he).2.2.2
  · intro te h
    simp [mkItemError, h]
  · intro te c h
    simp [mkItemError, h]

/-- A patch supplying a new title and finish time only. -/
def samplePatch : ShiftPatch :=
  { title := some "Evening Cover", role := none, typeOfShift := none
    user := none, startTime := none, finishTime := some ⟨23, 0⟩
    numOfShiftsPerDay := none, location := none, date := none }

/-- C6: update succeeds only while the shift is Scheduled — any other
status fails with an invalid status error naming the current status,
and the error carries no store, so the record is unchanged — and on a
successful update every field not supplied in the patch keeps its prior
value (the lifecycle fields are never touched), while a patch supplying
any of date, startTime or finishTime recomputes the instant pair through
createShiftDateTimes with the existing values as fallback for the fields
not supplied. -/
theorem updateShift_spec (w : World) (shiftId : Nat) (s : Shift)
    (ud : ShiftPatch) (hfind : lookupShift w shiftId = some s) :
    (s.status ≠ ShiftStatus.Scheduled →
      updateShift w shiftId ud = .error
        { message := "Cannot update shift as it is " ++ s.status.text
          statusCode := 400, errorCode := some "INVALID_SHIFT_STATUS" }) ∧
    (∀ w1 s1, updateShift w shiftId ud = .ok (w1, s1) →
      s.status = ShiftStatus.Scheduled ∧
      (ud.title = none → s1.title = s.title) ∧
      (ud.role = none → s1.role = s.role) ∧
      (ud.typeOfShift = none → s1.typeOfShift = s.typeOfShift) ∧
      (ud.user = none → s1.user = s.user) ∧
      (ud.numOfShiftsPerDay = none →
        s1.numOfShiftsPerDay = s.numOfShiftsPerDay) ∧
      (ud.location = none → s1.location = s.location) ∧
      (ud.date = none → s1.date = s.date) ∧
      s1.status = s.status ∧
      s1.clockInTime = s.clockInTime ∧
      s1.clockOutTime = s.clockOutTime ∧
      (ud.startTime = none → ud.finishTime = none → ud.date = none →
        s1.startTime = s.startTime ∧ s1.finishTime = s.finishTime) ∧
      ((ud.startTime.isSome || ud.finishTime.isSome || ud.date.isSome) = true →
        s1.startTime = (createShiftDateTimes (ud.date.getD s.date)
          (ud.startTime.getD (toTimeHM s.startTime))
          (ud.finishTime.getD (toTimeHM s.finishTime))).startDateTime ∧
        s1.finishTime = (createShiftDateTimes (ud.date.getD s.date)
          (ud.startTime.getD (toTimeHM s.startTime))
          (ud.finishTime.getD (toTimeHM s.finishTime))).finishDateTime)) := by
  unfold updateShift
  rw [hfind]
  dsimp only
  constructor
  · intro hst
    rw [if_pos hst]
  · intro w1 s1 hok
    by_cases hst : s.status = ShiftStatus.Scheduled
    · have hne : ¬(s.status ≠ ShiftStatus.Scheduled) := by simp [hst]
      rw [if_neg hne] at hok
      have hpair : applyShiftUpdate w shiftId s ud = (w1, s1) := by
        cases hu : ud.user with
        | some u =>
            rw [hu] at hok
            dsimp only at hok
            by_cases hue : userExists w u = false
            · rw [if_pos hue] at hok
              cases hok
            · rw [if_neg hue] at hok
              exact Except.ok.inj hok
        | none =>
            rw [hu] at hok
            dsimp only at hok
            exact Except.ok.inj hok
      have hs1 : s1 = (applyShiftUpdate w shiftId s ud).2 := by rw [hpair]
      subst hs1
      refine ⟨hst, ?_, ?_, ?_, ?_, ?_, ?_, ?_, ?_, ?_, ?_, ?_, ?_⟩
      · intro h
        simp [applyShiftUpdate, h]
      · intro h
        simp [applyShiftUpdate, h]
      · intro h
        simp [applyShiftUpdate, h]
      · intro h
        simp [applyShiftUpdate, h]
      · intro h
        simp [applyShiftUpdate, h]
      · intro h
        simp [applyShiftUpdate, h]
      · intro h
        simp [applyShiftUpdate, h]
      · simp [applyShiftUpdate]
      · simp [applyShiftUpdate]
      · simp [applyShiftUpdate]
      · intro h1 h2 h3
        constructor <;> simp [applyShiftUpdate, h1, h2, h3]
      · intro hcond
        constructor <;> simp [applyShiftUpdate, hcond]
    · have hne : s.status ≠ ShiftStatus.Scheduled := hst
      rw [if_pos hne] at hok
      cases hok

/-- Witness for C6: the Scheduled overnight shift patched with a new
title and finish time. -/
theorem updateShift_spec_witness :
    (baseShift.status ≠ ShiftStatus.Scheduled →
      updateShift worldScheduled 5 samplePatch = .error
        { message := "Cannot update shift as it is " ++ baseShift.status.text
          statusCode := 400, errorCode := some "INVALID_SHIFT_STATUS" }) ∧
    (∀ w1 s1, updateShift worldScheduled 5 samplePatch = .ok (w1, s1) →
      baseShift.status = ShiftStatus.Scheduled ∧
      (samplePatch.title = none → s1.title = baseShift.title) ∧
      (samplePatch.role = none → s1.role = baseShift.role) ∧
      (samplePatch.typeOfShift = none →
        s1.typeOfShift = baseShift.typeOfShift) ∧
      (samplePatch.user = none → s1.user = baseShift.user) ∧
      (samplePatch.numOfShiftsPerDay = none →
        s1.numOfShiftsPerDay = baseShift.numOfShiftsPerDay) ∧
      (samplePatch.location = none → s1.location = baseShift.location) ∧
      (samplePatch.date = none → s1.date = baseShift.date) ∧
      s1.status = baseShift.status ∧
      s1.clockInTime = baseShift.clockInTime ∧
      s1.clockOutTime = baseShift.clockOutTime ∧
      (samplePatch.startTime = none → samplePatch.finishTime = none →
        samplePatch.date = none →
        s1.startTime = baseShift.startTime ∧
        s1.finishTime = baseShift.finishTime) ∧
      ((samplePatch.startTime.isSome || samplePatch.finishTime.isSome ||
          samplePatch.date.isSome) = true →
        s1.startTime = (createShiftDateTimes (samplePatch.date.getD
            baseShift.date)
          (samplePatch.startTime.getD (toTimeHM baseShift.startTime))
          (samplePatch.finishTime.getD
            (toTimeHM baseShift.finishTime))).startDateTime ∧
        s1.finishTime = (createShiftDateTimes (samplePatch.date.getD
            baseShift.date)
          (samplePatch.startTime.getD (toTimeHM baseShift.startTime))
          (samplePatch.finishTime.getD
            (toTimeHM baseShift.finishTime))).finishDateTime)) :=
  updateShift_spec worldScheduled 5 baseShift samplePatch rfl

end ShiftEngine
